import Mathlib

/-!
Verification of the LWR unqueued job manager (`lwr/managers/base.py`).

A job's durable state is the set of files in its staging directory.  Each
file is modelled by an `Option String` (`none` = the file is absent,
`some c` = the file exists with contents `c`).  The manager's methods are
translated as functions over this state; the per-job lock serializes the
source's read-modify-write sequences, so each locked critical section
becomes one function application on the job's file state.  The per-job
action of each method lives in the `Job` namespace; the manager-level
wrappers (lock-registry lookup, directory existence) live in the `Manager`
namespace over `ManagerState`.  Operations that can raise in Python return
`Except PyError _`; operations the source performs without any raise (such
as `check_complete`, a bare `os.path.exists` probe) are total.
-/

/-- Python exceptions the translated code can raise: `KeyError` from a
missing `job_locks` dict entry, `IOError` from opening a missing file,
`ValueError` from `int()` on a non-numeric string, `OSError` from
`os.mkdir` on an existing directory. -/
inductive PyError where
  | keyError
  | ioError
  | valueError
  | osError
deriving DecidableEq, Repr

/-- Result of `Manager.get_pid`: the Python function returns `None` when
reading the `pid` file raises, the parsed integer when `int()` succeeds,
and — because the bare `except` catches the `int()` failure after `pid`
was already rebound to the file contents — the raw string when the file
exists but does not parse. -/
inductive PidResult where
  | none
  | int (n : Int)
  | str (s : String)
deriving DecidableEq, Repr

/-- Python truthiness of a `PidResult`, used by `kill`'s `if pid:` check:
`None` is falsy, `0` is falsy, the empty string is falsy. -/
def PidResult.truthy : PidResult → Bool
  | PidResult.none => false
  | PidResult.int n => n != 0
  | PidResult.str s => s != ""

/-- The files of one job's staging directory that the manager reads or
writes (`__job_file(job_id, name)` for each marker `name`).  `none` means
the file does not exist. -/
structure JobFiles where
  submitted : Option String
  pid : Option String
  cancelled : Option String
  return_code : Option String
  stdout : Option String
  stderr : Option String
deriving DecidableEq, Repr

/-- A freshly set-up job directory: `setup_job` creates the directory and
its three subdirectories but no marker file. -/
def JobFiles.empty : JobFiles :=
  { submitted := Option.none, pid := Option.none, cancelled := Option.none,
    return_code := Option.none, stdout := Option.none, stderr := Option.none }

/-- Contents of the job file called `name`, as `open(path).read()` /
`os.path.exists` see it. -/
def JobFiles.get (f : JobFiles) (name : String) : Option String :=
  if name = "submitted" then f.submitted
  else if name = "pid" then f.pid
  else if name = "cancelled" then f.cancelled
  else if name = "return_code" then f.return_code
  else if name = "stdout" then f.stdout
  else if name = "stderr" then f.stderr
  else Option.none

/-- Overwrite (`open(path, 'w')` + `write`) the job file called `name`. -/
def JobFiles.set (f : JobFiles) (name contents : String) : JobFiles :=
  if name = "submitted" then { f with submitted := some contents }
  else if name = "pid" then { f with pid := some contents }
  else if name = "cancelled" then { f with cancelled := some contents }
  else if name = "return_code" then { f with return_code := some contents }
  else if name = "stdout" then { f with stdout := some contents }
  else if name = "stderr" then { f with stderr := some contents }
  else f

/-- Delete (`os.remove`) the job file called `name`; removing an absent
file is a no-op here because `_attempt_remove_job_file` swallows the
`OSError`. -/
def JobFiles.remove (f : JobFiles) (name : String) : JobFiles :=
  if name = "submitted" then { f with submitted := Option.none }
  else if name = "pid" then { f with pid := Option.none }
  else if name = "cancelled" then { f with cancelled := Option.none }
  else if name = "return_code" then { f with return_code := Option.none }
  else if name = "stdout" then { f with stdout := Option.none }
  else if name = "stderr" then { f with stderr := Option.none }
  else f

/-- Whitespace characters stripped by Python 2 `int()`. -/
def pyIsSpace (c : Char) : Bool :=
  c = ' ' || c = '\t' || c = '\n' || c = '\x0b' || c = '\x0c' || c = '\r'

/-- Decimal value of a non-empty run of digits; `Option.none` as soon as a
non-digit appears. -/
def pyNatAux : List Char → Nat → Option Nat
  | [], acc => some acc
  | c :: cs, acc =>
    if c.isDigit then pyNatAux cs (acc * 10 + (c.toNat - 48))
    else Option.none

/-- Model of Python 2 `int(s)` on a string: surrounding whitespace is
allowed, then an optional sign and at least one decimal digit; anything
else raises (`Option.none` here). -/
def pyInt? (s : String) : Option Int :=
  let cs := ((s.data.dropWhile pyIsSpace).reverse.dropWhile pyIsSpace).reverse
  match cs with
  | [] => Option.none
  | '-' :: rest =>
    match rest with
    | [] => Option.none
    | _ :: _ => (pyNatAux rest 0).map (fun n => -(n : Int))
  | '+' :: rest =>
    match rest with
    | [] => Option.none
    | _ :: _ => (pyNatAux rest 0).map Int.ofNat
  | _ => (pyNatAux cs 0).map Int.ofNat

/-- Manager `_has_job_file`: `os.path.exists(self.__job_file(job_id, filename))`. -/
def Job._has_job_file (f : JobFiles) (filename : String) : Bool :=
  (f.get filename).isSome

/-- Manager `__read_job_file`: `open(path, 'r').read()`, raising `IOError`
when the file does not exist. -/
def Job._read_job_file (f : JobFiles) (name : String) : Except PyError String :=
  match f.get name with
  | some contents => Except.ok contents
  | Option.none => Except.error PyError.ioError

/-- Manager `__write_job_file`. -/
def Job._write_job_file (f : JobFiles) (name contents : String) : JobFiles :=
  f.set name contents

/-- Manager `_record_submission`: writes the `submitted` marker. -/
def Job._record_submission (f : JobFiles) : JobFiles :=
  Job._write_job_file f "submitted" "true"

/-- Manager `_record_cancel`: writes the `cancelled` marker. -/
def Job._record_cancel (f : JobFiles) : JobFiles :=
  Job._write_job_file f "cancelled" "true"

/-- Manager `_is_cancelled`: presence of the `cancelled` marker. -/
def Job._is_cancelled (f : JobFiles) : Bool :=
  Job._has_job_file f "cancelled"

/-- Manager `_record_pid`: writes `str(pid)` to the `pid` marker. -/
def Job._record_pid (f : JobFiles) (pid : Int) : JobFiles :=
  Job._write_job_file f "pid" (toString pid)

/-- Manager `_attempt_remove_job_file`: `os.remove` with the `OSError`
swallowed. -/
def Job._attempt_remove_job_file (f : JobFiles) (filename : String) : JobFiles :=
  f.remove filename

/-- Manager `get_pid`: read the `pid` file and parse it, with the whole
body wrapped in a bare `except: pass`; a failed read leaves `None`, a
failed `int()` leaves the raw string. -/
def Job.get_pid (f : JobFiles) : PidResult :=
  match Job._read_job_file f "pid" with
  | Except.error _ => PidResult.none
  | Except.ok s =>
    match pyInt? s with
    | some n => PidResult.int n
    | Option.none => PidResult.str s

/-- Manager `check_complete`: `not os.path.exists(submitted)`; a plain
probe, it can never raise. -/
def Job.check_complete (f : JobFiles) : Bool :=
  !(Job._has_job_file f "submitted")

/-- Manager `return_code`: `int(self.__read_job_file(job_id, 'return_code'))`;
raises `IOError` when the file is absent and `ValueError` when its
contents do not parse. -/
def Job.return_code (f : JobFiles) : Except PyError Int :=
  match Job._read_job_file f "return_code" with
  | Except.error e => Except.error e
  | Except.ok s =>
    match pyInt? s with
    | some n => Except.ok n
    | Option.none => Except.error PyError.valueError

/-- Manager `stdout_contents`. -/
def Job.stdout_contents (f : JobFiles) : Except PyError String :=
  Job._read_job_file f "stdout"

/-- Manager `stderr_contents`. -/
def Job.stderr_contents (f : JobFiles) : Except PyError String :=
  Job._read_job_file f "stderr"

/-- Manager `_get_status`: the status precedence chain evaluated under the
job lock — `cancelled`, then `pid`, then `submitted`, then complete. -/
def Job._get_status (f : JobFiles) : String :=
  if Job._is_cancelled f then "cancelled"
  else if Job._has_job_file f "pid" then "running"
  else if Job._has_job_file f "submitted" then "queued"
  else "complete"

/-- Manager `kill`.  Under the job lock: compute the status and return if
it is neither running nor queued; otherwise read the pid, and when it is
`None` write the `cancelled` marker and remove `submitted`.  After the
lock is released, `kill_pid(pid)` is invoked when `pid` is truthy; the
second component records that external signal action (`some p` = the
signal is sent to `p`). -/
def Job.kill (f : JobFiles) : JobFiles × Option PidResult :=
  let status := Job._get_status f
  if status = "running" ∨ status = "queued" then
    let pid := Job.get_pid f
    let f2 :=
      if pid = PidResult.none then
        Job._attempt_remove_job_file (Job._record_cancel f) "submitted"
      else f
    (f2, if pid.truthy then some pid else Option.none)
  else (f, Option.none)

/-- Manager `_finish_execution`: under the job lock, remove the
`submitted` and `pid` markers (idempotently). -/
def Job._finish_execution (f : JobFiles) : JobFiles :=
  Job._attempt_remove_job_file (Job._attempt_remove_job_file f "submitted") "pid"

/-- Manager `_monitor_execution` after the child exits with code
`child_code`: write the `return_code` marker, then — in the `finally`
block, whether or not that write raised (`write_fails`) — run
`_finish_execution` under the job lock. -/
def Job._monitor_execution (f : JobFiles) (child_code : Int) (write_fails : Bool) :
    JobFiles :=
  Job._finish_execution
    (if write_fails then f else Job._write_job_file f "return_code" (toString child_code))

/-- Manager `_run` up to the point `launch` returns: under the lock,
re-check cancellation and return without spawning when cancelled;
otherwise open the `stdout`/`stderr` files (creating them empty), spawn
the child (whose OS pid the environment supplies as `spawn_pid`) and
record its pid under the lock.  The second component records the spawn
action (`some p` = a child with pid `p` was spawned); the monitor is
modelled separately by `_monitor_execution`. -/
def Job._run (f : JobFiles) (spawn_pid : Int) : JobFiles × Option Int :=
  if Job._is_cancelled f then (f, Option.none)
  else
    let f1 := Job._write_job_file f "stdout" ""
    let f2 := Job._write_job_file f1 "stderr" ""
    (Job._record_pid f2 spawn_pid, some spawn_pid)

/-- Manager `launch`: record the `submitted` marker, then `_run`. -/
def Job.launch (f : JobFiles) (spawn_pid : Int) : JobFiles × Option Int :=
  Job._run (Job._record_submission f) spawn_pid

/-- Status derivation as the specification words it (section 4.2): a pure
function of the three marker-presence booleans, `cancelled` before
`running` before `queued` before `complete`.  Stated from the spec, to be
compared with `_get_status` translated from the source. -/
def statusSpec (cancelled_present pid_present submitted_present : Bool) : String :=
  if cancelled_present then "cancelled"
  else if pid_present then "running"
  else if submitted_present then "queued"
  else "complete"

/-- Model of `os.path.join(a, b)`: an absolute second component replaces
the first; otherwise they are joined with a separator. -/
def os_path_join (a b : String) : String :=
  match b.data with
  | '/' :: _ => b
  | _ => a ++ "/" ++ b

/-- The manager-level state: the configured staging root, the in-memory
`job_locks` dict (its key set; the keys of a Python dict are unique), and
the existing job directories with their files (`dirs` associates each
existing `<staging_root>/<job_id>` directory with its files). -/
structure ManagerState where
  staging_directory : String
  job_locks : List String
  dirs : List (String × JobFiles)
deriving DecidableEq, Repr

/-- Files of the job directory for `job_id`, or `Option.none` when that
directory does not exist. -/
def ManagerState.dirFiles (s : ManagerState) (job_id : String) : Option JobFiles :=
  (s.dirs.find? (fun p => p.1 == job_id)).map Prod.snd

/-- Manager `job_directory`: `os.path.join(self.staging_directory, job_id)`,
with the raw job id used directly as the path component. -/
def Manager.job_directory (s : ManagerState) (job_id : String) : String :=
  os_path_join s.staging_directory job_id

/-- Manager `setup_job`: `_register_job` stores a lock under
`str(input_job_id)` (no validation of the id), then `os.mkdir` creates the
job directory — raising `OSError` if it already exists — and the three
subdirectories.  `tool_id` and `tool_version` are accepted and ignored,
as in the source. -/
def Manager.setup_job (s : ManagerState) (input_job_id tool_id tool_version : String) :
    Except PyError (ManagerState × String) :=
  let job_id := input_job_id
  let locks := if job_id ∈ s.job_locks then s.job_locks else job_id :: s.job_locks
  if (s.dirFiles job_id).isSome then Except.error PyError.osError
  else
    Except.ok
      ({ s with job_locks := locks, dirs := (job_id, JobFiles.empty) :: s.dirs }, job_id)

/-- Manager `clean_job_directory`: best-effort `shutil.rmtree` of the job
directory (failures swallowed), then `del self.job_locks[job_id]` — which
raises `KeyError` when the job is not registered, after the directory has
already been removed. -/
def Manager.clean_job_directory (s : ManagerState) (job_id : String) :
    ManagerState × Option PyError :=
  let s1 := { s with dirs := s.dirs.filter (fun p => !(p.1 == job_id)) }
  if job_id ∈ s1.job_locks then
    ({ s1 with job_locks := s1.job_locks.erase job_id }, Option.none)
  else (s1, some PyError.keyError)

/-- Manager `check_complete` at manager level: a bare `os.path.exists`
probe on the `submitted` path — it never raises, and a missing job
directory simply means the path does not exist. -/
def Manager.check_complete (s : ManagerState) (job_id : String) : Bool :=
  match s.dirFiles job_id with
  | some f => Job.check_complete f
  | Option.none => true

/-- Manager `get_status`: `with self._get_job_lock(job_id)` looks the job
up in the `job_locks` dict — `KeyError` when absent — then `_get_status`
runs its existence probes (every probe false when the directory is gone). -/
def Manager.get_status (s : ManagerState) (job_id : String) : Except PyError String :=
  if job_id ∈ s.job_locks then
    Except.ok (Job._get_status ((s.dirFiles job_id).getD JobFiles.empty))
  else Except.error PyError.keyError

/-- Manager `return_code` at manager level: reading the `return_code`
file raises `IOError` when the job directory (hence the file) is gone. -/
def Manager.return_code (s : ManagerState) (job_id : String) : Except PyError Int :=
  Job.return_code ((s.dirFiles job_id).getD JobFiles.empty)

/-- Manager `stdout_contents` at manager level. -/
def Manager.stdout_contents (s : ManagerState) (job_id : String) : Except PyError String :=
  Job.stdout_contents ((s.dirFiles job_id).getD JobFiles.empty)

/-- Manager `stderr_contents` at manager level. -/
def Manager.stderr_contents (s : ManagerState) (job_id : String) : Except PyError String :=
  Job.stderr_contents ((s.dirFiles job_id).getD JobFiles.empty)

/-- Manager `kill` at manager level: acquiring the job lock raises
`KeyError` for an unregistered job; otherwise the per-job `kill` acts on
the job's files (a missing directory shows every probe absent). -/
def Manager.kill (s : ManagerState) (job_id : String) :
    Except PyError (ManagerState × Option PidResult) :=
  if job_id ∈ s.job_locks then
    match s.dirFiles job_id with
    | some f =>
      let r := Job.kill f
      Except.ok
        ({ s with dirs := s.dirs.map (fun p => if p.1 == job_id then (p.1, r.1) else p) },
         r.2)
    | Option.none => Except.ok (s, (Job.kill JobFiles.empty).2)
  else Except.error PyError.keyError

/-- A job directory in which the process has finished and been finalized:
only `return_code`, `stdout` and `stderr` remain. -/
def finishedJob : JobFiles :=
  { submitted := Option.none, pid := Option.none, cancelled := Option.none,
    return_code := some "0", stdout := some "Hello World!", stderr := some "moo" }

/-- A job that has been submitted but whose process has not started: only
the `submitted` marker exists. -/
def queuedJob : JobFiles :=
  { submitted := some "true", pid := Option.none, cancelled := Option.none,
    return_code := Option.none, stdout := Option.none, stderr := Option.none }

/-- A job whose child process is running: `submitted` and `pid` markers
exist and the output files have been created. -/
def runningJob : JobFiles :=
  { submitted := some "true", pid := some "42", cancelled := Option.none,
    return_code := Option.none, stdout := some "", stderr := some "" }

/-- A job that was cancelled before its process ever started. -/
def cancelledJob : JobFiles :=
  { submitted := Option.none, pid := Option.none, cancelled := some "true",
    return_code := Option.none, stdout := Option.none, stderr := Option.none }

/-- C7: for every registered job, `_get_status` returns exactly the first
matching case of the precedence `cancelled` marker → cancelled, else `pid`
marker → running, else `submitted` marker → queued, else complete — i.e.
it coincides with the spec-side pure function `statusSpec` of the three
marker-presence booleans. -/
theorem c7_get_status_precedence (f : JobFiles) :
    Job._get_status f = statusSpec f.cancelled.isSome f.pid.isSome f.submitted.isSome := by
  obtain ⟨sub, pid, can, rc, so, se⟩ := f
  cases can <;> cases pid <;> cases sub <;> rfl

/-- C9: `check_complete` returns true exactly when the `submitted` marker
is absent.  The source's `check_complete` and `get_status` perform only
filesystem reads, so they are translated as pure functions of the job's
file state: repeated calls on an unchanged (e.g. finalized) job trivially
return the same results and modify no marker. -/
theorem c9_check_complete_iff_submitted_absent (f : JobFiles) :
    Job.check_complete f = true ↔ f.submitted = Option.none := by
  obtain ⟨sub, pid, can, rc, so, se⟩ := f
  cases sub <;> simp [Job.check_complete, Job._has_job_file, JobFiles.get]

/-- C8: `kill` on a registered job whose status is neither running nor
queued returns without modifying any marker and without raising, and a
repeated `kill` on the resulting state is the same no-op. -/
theorem c8_kill_noop_on_finished (f : JobFiles)
    (h1 : Job._get_status f ≠ "running") (h2 : Job._get_status f ≠ "queued") :
    Job.kill f = (f, Option.none) ∧ Job.kill (Job.kill f).1 = (f, Option.none) := by
  have hc : ¬(Job._get_status f = "running" ∨ Job._get_status f = "queued") := by
    rintro (h | h)
    · exact h1 h
    · exact h2 h
  have hk : Job.kill f = (f, Option.none) := by
    unfold Job.kill
    simp [hc]
  refine ⟨hk, ?_⟩
  rw [hk]
  exact hk

/-- Witness for C8 at a finished job (only `return_code`/`stdout`/`stderr`
remain, status complete). -/
theorem c8_kill_noop_on_finished_witness :
    Job.kill finishedJob = (finishedJob, Option.none) ∧
      Job.kill (Job.kill finishedJob).1 = (finishedJob, Option.none) :=
  c8_kill_noop_on_finished finishedJob (by decide) (by decide)

/-- C1, counterexample: for a registered job on which `launch` was never
invoked (no marker exists), `kill` leaves the state unchanged and
`get_status` afterwards returns "complete", not "cancelled" as the claim
states — `kill` returns early because the status is not running/queued. -/
theorem c1_counterexample :
    Job._get_status (Job.kill JobFiles.empty).1 = "complete" ∧
      ¬(Job._get_status (Job.kill JobFiles.empty).1 = "cancelled") := by
  constructor
  · rfl
  · decide

/-- C1, amended: calling `kill` on a registered job before `launch` was
ever invoked (no `submitted`, `pid` or `cancelled` marker) is a complete
no-op: no marker is written (in particular no `cancelled` and no `pid`),
no signal is sent, `get_status` returns "complete", and `check_complete`
returns true. -/
theorem c1_kill_before_launch_noop (f : JobFiles)
    (hs : f.submitted = Option.none) (hp : f.pid = Option.none)
    (hc : f.cancelled = Option.none) :
    Job.kill f = (f, Option.none) ∧ Job._get_status f = "complete" ∧
      Job.check_complete f = true ∧ (Job.kill f).1.pid = Option.none := by
  obtain ⟨sub, pid, can, rc, so, se⟩ := f
  have hs' : sub = Option.none := hs
  have hp' : pid = Option.none := hp
  have hc' : can = Option.none := hc
  subst hs'; subst hp'; subst hc'
  exact ⟨rfl, rfl, rfl, rfl⟩

/-- Witness for the amended C1 at a freshly set-up job directory. -/
theorem c1_kill_before_launch_noop_witness :
    Job.kill JobFiles.empty = (JobFiles.empty, Option.none) ∧
      Job._get_status JobFiles.empty = "complete" ∧
      Job.check_complete JobFiles.empty = true ∧
      (Job.kill JobFiles.empty).1.pid = Option.none :=
  c1_kill_before_launch_noop JobFiles.empty rfl rfl rfl

/-- C4: when the `cancelled` marker is set at `_run`'s re-check, `launch`
returns without spawning (the spawn action is `Option.none`), the `pid`
marker is left exactly as it was (so none is ever recorded), and the job's
status remains "cancelled". -/
theorem c4_launch_skips_spawn_when_cancelled (f : JobFiles) (spawn_pid : Int)
    (h : Job._is_cancelled f = true) :
    (Job.launch f spawn_pid).2 = Option.none ∧
      (Job.launch f spawn_pid).1.pid = f.pid ∧
      Job._get_status (Job.launch f spawn_pid).1 = "cancelled" := by
  obtain ⟨sub, pid, can, rc, so, se⟩ := f
  cases can with
  | none => simp [Job._is_cancelled, Job._has_job_file, JobFiles.get] at h
  | some c => exact ⟨rfl, rfl, rfl⟩

/-- Witness for C4 at a job cancelled before launch. -/
theorem c4_launch_skips_spawn_when_cancelled_witness :
    (Job.launch cancelledJob 7).2 = Option.none ∧
      (Job.launch cancelledJob 7).1.pid = cancelledJob.pid ∧
      Job._get_status (Job.launch cancelledJob 7).1 = "cancelled" :=
  c4_launch_skips_spawn_when_cancelled cancelledJob 7 (by decide)

/-- C3: on a job whose status is running or queued, when `kill` reads no
recorded pid (`get_pid` finds no `pid` file), it writes the `cancelled`
marker and removes `submitted` within the same critical section, after
which `get_status` returns "cancelled" and `check_complete` returns
true.  (With no `pid` file the status can in fact only be "queued".) -/
theorem c3_kill_without_pid_cancels (f : JobFiles)
    (h1 : Job._get_status f = "running" ∨ Job._get_status f = "queued")
    (h2 : f.pid = Option.none) :
    (Job.kill f).1.cancelled = some "true" ∧
      (Job.kill f).1.submitted = Option.none ∧
      Job._get_status (Job.kill f).1 = "cancelled" ∧
      Job.check_complete (Job.kill f).1 = true := by
  obtain ⟨sub, pid, can, rc, so, se⟩ := f
  have hp' : pid = Option.none := h2
  subst hp'
  cases can with
  | some c =>
    simp [Job._get_status, Job._is_cancelled, Job._has_job_file, JobFiles.get] at h1
  | none =>
    cases sub with
    | none =>
      simp [Job._get_status, Job._is_cancelled, Job._has_job_file, JobFiles.get] at h1
    | some v => exact ⟨rfl, rfl, rfl, rfl⟩

/-- Witness for C3 at a queued job (only the `submitted` marker exists). -/
theorem c3_kill_without_pid_cancels_witness :
    (Job.kill queuedJob).1.cancelled = some "true" ∧
      (Job.kill queuedJob).1.submitted = Option.none ∧
      Job._get_status (Job.kill queuedJob).1 = "cancelled" ∧
      Job.check_complete (Job.kill queuedJob).1 = true :=
  c3_kill_without_pid_cancels queuedJob (Or.inr (by decide)) rfl

/-- C5: even when writing the `return_code` marker fails, the monitor's
`finally` block still removes the `submitted` and `pid` markers, so
`check_complete` reports the job complete; a subsequent `return_code`
query on such a job then raises (the read of the absent `return_code`
file fails) instead of returning a fabricated code. -/
theorem c5_monitor_finalizes_despite_write_failure (f : JobFiles) (child_code : Int)
    (h : f.return_code = Option.none) :
    (Job._monitor_execution f child_code true).submitted = Option.none ∧
      (Job._monitor_execution f child_code true).pid = Option.none ∧
      Job.check_complete (Job._monitor_execution f child_code true) = true ∧
      Job.return_code (Job._monitor_execution f child_code true) =
        Except.error PyError.ioError := by
  obtain ⟨sub, pid, can, rc, so, se⟩ := f
  have hr' : rc = Option.none := h
  subst hr'
  exact ⟨rfl, rfl, rfl, rfl⟩

/-- Witness for C5 at a running job whose `return_code` write fails. -/
theorem c5_monitor_finalizes_despite_write_failure_witness :
    (Job._monitor_execution runningJob 0 true).submitted = Option.none ∧
      (Job._monitor_execution runningJob 0 true).pid = Option.none ∧
      Job.check_complete (Job._monitor_execution runningJob 0 true) = true ∧
      Job.return_code (Job._monitor_execution runningJob 0 true) =
        Except.error PyError.ioError :=
  c5_monitor_finalizes_despite_write_failure runningJob 0 rfl

/-- C10: on a job whose `pid` marker holds (the decimal rendering of) a
positive pid and which is not cancelled, `kill` sends the termination
signal to that pid but writes nothing — in particular no `cancelled`
marker — so once the monitor finalizes the job (with any exit code,
whether or not the `return_code` write succeeds), `get_status` reports
"complete", not "cancelled". -/
theorem c10_kill_running_reports_complete (f : JobFiles) (ps : String) (p : Int)
    (child_code : Int) (write_fails : Bool)
    (hp : f.pid = some ps) (hparse : pyInt? ps = some p) (hpos : 0 < p)
    (hc : f.cancelled = Option.none) :
    (Job.kill f).2 = some (PidResult.int p) ∧ (Job.kill f).1 = f ∧
      Job._get_status
        (Job._monitor_execution (Job.kill f).1 child_code write_fails) = "complete" := by
  obtain ⟨sub, pid, can, rc, so, se⟩ := f
  have hp' : pid = some ps := hp
  have hc' : can = Option.none := hc
  subst hp'; subst hc'
  have hgp : Job.get_pid ⟨sub, some ps, Option.none, rc, so, se⟩ = PidResult.int p := by
    simp [Job.get_pid, Job._read_job_file, JobFiles.get, hparse]
  have htr : PidResult.truthy (PidResult.int p) = true := by
    simp [PidResult.truthy, bne_iff_ne]
    omega
  have hkill : Job.kill ⟨sub, some ps, Option.none, rc, so, se⟩ =
      (⟨sub, some ps, Option.none, rc, so, se⟩, some (PidResult.int p)) := by
    simp [Job.kill, Job._get_status, Job._is_cancelled, Job._has_job_file, JobFiles.get,
      hgp, htr]
  have hmon : Job._get_status
      (Job._monitor_execution ⟨sub, some ps, Option.none, rc, so, se⟩
        child_code write_fails) = "complete" := by
    cases write_fails <;> rfl
  rw [hkill]
  exact ⟨rfl, rfl, hmon⟩

/-- Witness for C10 at a running job with recorded pid 42. -/
theorem c10_kill_running_reports_complete_witness :
    (Job.kill runningJob).2 = some (PidResult.int 42) ∧
      (Job.kill runningJob).1 = runningJob ∧
      Job._get_status (Job._monitor_execution (Job.kill runningJob).1 0 false) =
        "complete" :=
  c10_kill_running_reports_complete runningJob "42" 42 0 false rfl (by decide)
    (by decide) rfl

/-- After the directory list has been filtered on a job id, a lookup for
that id finds nothing: `shutil.rmtree` leaves no path under the removed
job directory. -/
theorem find?_after_filter_eq_none (dirs : List (String × JobFiles)) (j : String) :
    List.find? (fun p => p.1 == j) (dirs.filter (fun p => !(p.1 == j))) = Option.none := by
  induction dirs with
  | nil => rfl
  | cons hd tl ih =>
    by_cases h : hd.1 = j
    · simp [List.filter_cons, h, ih]
    · simp [List.filter_cons, List.find?_cons, h, ih]

/-- A demonstration manager holding one registered job, `"1"`, whose
process is running. -/
def oneRunningJobManager : ManagerState :=
  { staging_directory := "/staging", job_locks := ["1"], dirs := [("1", runningJob)] }

/-- C2, counterexample: after `clean_job_directory`, `check_complete` on
the cleaned job id does not fail at all — `os.path.exists` on the removed
path simply returns false, so `check_complete` returns true — refuting
the claim that every subsequent operation on the id fails with a
NotFound error. -/
theorem c2_counterexample :
    Manager.check_complete (Manager.clean_job_directory oneRunningJobManager "1").1 "1" =
      true := by
  decide

/-- C2, amended: after `clean_job_directory` on a registered job (even one
still "running"), cleanup completes without error, `get_status` and `kill`
fail with `KeyError` (the NotFound of the lock registry), and
`return_code`/`stdout_contents`/`stderr_contents` fail with `IOError`
(the file is gone) — but `check_complete` returns true without error.
`job_locks` is a Python dict, so its key list has no duplicates
(`hnd`). -/
theorem c2_operations_after_clean (s : ManagerState) (j : String)
    (hreg : j ∈ s.job_locks) (hnd : s.job_locks.Nodup) :
    (Manager.clean_job_directory s j).2 = Option.none ∧
      Manager.get_status (Manager.clean_job_directory s j).1 j =
        Except.error PyError.keyError ∧
      Manager.kill (Manager.clean_job_directory s j).1 j =
        Except.error PyError.keyError ∧
      Manager.return_code (Manager.clean_job_directory s j).1 j =
        Except.error PyError.ioError ∧
      Manager.stdout_contents (Manager.clean_job_directory s j).1 j =
        Except.error PyError.ioError ∧
      Manager.stderr_contents (Manager.clean_job_directory s j).1 j =
        Except.error PyError.ioError ∧
      Manager.check_complete (Manager.clean_job_directory s j).1 j = true := by
  have hclean : Manager.clean_job_directory s j =
      ({ staging_directory := s.staging_directory,
         job_locks := s.job_locks.erase j,
         dirs := s.dirs.filter (fun p => !(p.1 == j)) }, Option.none) := by
    simp [Manager.clean_job_directory, hreg]
  have hnotmem : j ∉ s.job_locks.erase j := by
    intro hmem
    exact ((hnd.mem_erase_iff).1 hmem).1 rfl
  have hdf : ManagerState.dirFiles
      { staging_directory := s.staging_directory,
        job_locks := s.job_locks.erase j,
        dirs := s.dirs.filter (fun p => !(p.1 == j)) } j = Option.none := by
    simp [ManagerState.dirFiles, find?_after_filter_eq_none]
  rw [hclean]
  refine ⟨rfl, ?_, ?_, ?_, ?_, ?_, ?_⟩
  · simp [Manager.get_status, hnotmem]
  · simp [Manager.kill, hnotmem]
  · simp [Manager.return_code, hdf]
    rfl
  · simp [Manager.stdout_contents, hdf]
    rfl
  · simp [Manager.stderr_contents, hdf]
    rfl
  · simp [Manager.check_complete, hdf]

/-- Witness for the amended C2 at the one-running-job manager. -/
theorem c2_operations_after_clean_witness :
    (Manager.clean_job_directory oneRunningJobManager "1").2 = Option.none ∧
      Manager.get_status (Manager.clean_job_directory oneRunningJobManager "1").1 "1" =
        Except.error PyError.keyError ∧
      Manager.kill (Manager.clean_job_directory oneRunningJobManager "1").1 "1" =
        Except.error PyError.keyError ∧
      Manager.return_code (Manager.clean_job_directory oneRunningJobManager "1").1 "1" =
        Except.error PyError.ioError ∧
      Manager.stdout_contents
          (Manager.clean_job_directory oneRunningJobManager "1").1 "1" =
        Except.error PyError.ioError ∧
      Manager.stderr_contents
          (Manager.clean_job_directory oneRunningJobManager "1").1 "1" =
        Except.error PyError.ioError ∧
      Manager.check_complete (Manager.clean_job_directory oneRunningJobManager "1").1 "1" =
        true :=
  c2_operations_after_clean oneRunningJobManager "1" (by decide) (by decide)

/-- A manager with an empty staging root and no job yet. -/
def freshManager : ManagerState :=
  { staging_directory := "/staging", job_locks := [], dirs := [] }

/-- C6: the mandated job-id validation is absent from the code. `setup_job`
accepts an id containing a parent-reference sequence without any check,
registers it, creates its directory entry, and `job_directory` builds the
staging path with the raw id embedded, yielding a path that escapes the
staging root. -/
theorem c6_setup_accepts_traversal_id :
    Manager.setup_job freshManager "../escape" "tool1" "1.0.0" =
      Except.ok
        ({ staging_directory := "/staging", job_locks := ["../escape"],
           dirs := [("../escape", JobFiles.empty)] }, "../escape") ∧
      Manager.job_directory freshManager "../escape" = "/staging/../escape" := by
  constructor
  · rfl
  · rfl
